import Mathlib

/-!
Shallow embedding of `comprehensive-analysis-v1.py`, a Streamlit dashboard
holding per-competitor business metrics in `st.session_state.competitors`
(a Python dict from competitor name to a six-field metrics dict), plus a
single outbound HTTP call (`get_ai_analysis`) to a generative-language API.

The store is modelled as an association list `List (String × MetricsRecord)`
because a Python dict preserves insertion order; dict subscripting on a
missing key raises `KeyError`, modelled with `Except`.
-/

set_option autoImplicit false

namespace CompAnalysis

/-- The six-field metrics dict created per competitor (source lines 55-62).
`revenue`, `market_share`, `growth_rate` come from float widgets, modelled
as `Rat`; `employees`, `customer_satisfaction`, `product_count` come from
int widgets, modelled as `Int`.  The store itself imposes no bounds. -/
structure MetricsRecord where
  revenue : Rat
  market_share : Rat
  growth_rate : Rat
  employees : Int
  customer_satisfaction : Int
  product_count : Int
deriving DecidableEq, Repr

/-- The all-zero record inserted by `add_competitor` (source lines 55-62). -/
def zeroRecord : MetricsRecord :=
  { revenue := 0, market_share := 0, growth_rate := 0,
    employees := 0, customer_satisfaction := 0, product_count := 0 }

/-- The store `st.session_state.competitors`: an insertion-ordered mapping
from competitor name to metrics record. -/
abbrev Store := List (String × MetricsRecord)

/-- First-match lookup, the semantics of Python `dict[name]` /
`name in dict` on the (duplicate-free) store. -/
def lookupStore : Store → String → Option MetricsRecord
  | [], _ => none
  | (k, v) :: rest, n => if k = n then some v else lookupStore rest n

/-- The function `add_competitor(name)` (source lines 53-62):
`if name and name not in st.session_state.competitors:` insert the
all-zero record.  Python dict assignment to a fresh key appends it
to the iteration order. -/
def add_competitor (name : String) (s : Store) : Store :=
  if name ≠ "" ∧ lookupStore s name = none then s ++ [(name, zeroRecord)]
  else s

/-- The error raised by Python dict subscripting on a missing key. -/
inductive UpdateError where
  | keyError
deriving DecidableEq, Repr

/-- The update `st.session_state.competitors[competitor].update({...})` (source lines
136-143) for an arbitrary name: subscripting raises `KeyError` when the
name is absent; otherwise all six fields are overwritten with the widget
values, in place, so key order and every other entry are untouched.
No validation of the written values happens here. -/
def updateCompetitor (s : Store) (name : String) (f : MetricsRecord) :
    Except UpdateError Store :=
  if (lookupStore s name).isSome then
    .ok (s.map fun p => if p.1 = name then (p.1, f) else p)
  else
    .error .keyError

/-- The session-level effect of one update attempt: on `KeyError` the
script run aborts and the session state is left as it was. -/
def applyUpdate (s : Store) (name : String) (f : MetricsRecord) : Store :=
  match updateCompetitor s name f with
  | .ok s2 => s2
  | .error _ => s

/-- A sequence of update attempts, applied left to right. -/
def applyUpdates (s : Store) (us : List (String × MetricsRecord)) : Store :=
  us.foldl (fun acc u => applyUpdate acc u.1 u.2) s

/-- The spec operation `snapshot()`: the tabular view `pd.DataFrame(st.session_state.competitors).T`
(source line 149) — the ordered (name, record) pairs of the store. -/
def snapshot (s : Store) : List (String × MetricsRecord) := s

/-- The spec operation `is_empty()`: the truthiness test `if st.session_state.competitors:`
(source line 86), negated. -/
def isEmptyStore (s : Store) : Bool := s.isEmpty

/-- The declared bound of every field (spec section 3): revenue ≥ 0,
market_share ∈ [0,100], growth_rate ≥ -100, employees ≥ 0,
customer_satisfaction ∈ [0,100], product_count ≥ 0.  These are exactly
the min/max arguments of the six `st.number_input` widgets
(source lines 94-133). -/
def inBounds (r : MetricsRecord) : Bool :=
  decide (0 ≤ r.revenue) && decide (0 ≤ r.market_share) &&
  decide (r.market_share ≤ 100) && decide (-100 ≤ r.growth_rate) &&
  decide (0 ≤ r.employees) && decide (0 ≤ r.customer_satisfaction) &&
  decide (r.customer_satisfaction ≤ 100) && decide (0 ≤ r.product_count)

/-- Every record of the store satisfies its declared bounds. -/
def allInBounds (s : Store) : Bool := s.all fun p => inBounds p.2

/- ## Helper lemmas about the store -/

theorem lookupStore_append_of_none (s t : Store) (n : String)
    (h : lookupStore s n = none) : lookupStore (s ++ t) n = lookupStore t n := by
  induction s with
  | nil => rfl
  | cons p rest ih =>
      obtain ⟨k, v⟩ := p
      by_cases hk : k = n
      · simp [lookupStore, hk] at h
      · simp only [lookupStore, hk, if_neg hk, List.cons_append] at h ⊢
        exact ih h

theorem lookupStore_append_of_some (s t : Store) (n : String)
    (v : MetricsRecord) (h : lookupStore s n = some v) :
    lookupStore (s ++ t) n = some v := by
  induction s with
  | nil => simp [lookupStore] at h
  | cons p rest ih =>
      obtain ⟨k, w⟩ := p
      by_cases hk : k = n
      · simp only [lookupStore, if_pos hk] at h ⊢
        exact h
      · simp only [lookupStore, if_neg hk, List.cons_append] at h ⊢
        exact ih h

theorem lookupStore_none_forall (s : Store) (n : String)
    (h : lookupStore s n = none) : ∀ p ∈ s, p.1 ≠ n := by
  induction s with
  | nil => intro p hp; cases hp
  | cons q rest ih =>
      obtain ⟨k, v⟩ := q
      by_cases hk : k = n
      · simp [lookupStore, hk] at h
      · simp only [lookupStore, if_neg hk] at h
        intro p hp
        rw [List.mem_cons] at hp
        rcases hp with rfl | hp
        · exact hk
        · exact ih h p hp

/- ## Rendering of the main content (source lines 86-193) -/

/-- One user-visible output element of the main content area. -/
inductive RenderElem where
  | chart (title : String)
  | text (msg : String)
  | dataframe
  | downloadButton
deriving DecidableEq, Repr

/-- Whether an output element is a chart (a `st.plotly_chart` call). -/
def RenderElem.isChart : RenderElem → Bool
  | .chart _ => true
  | _ => false

/-- The main content branch (source lines 86-193): when the store is
non-empty, the five plotly charts, the styled dataframe and the download
button are produced; otherwise only the prompt text is written and no
chart-producing call is made. -/
def renderMain (s : Store) : List RenderElem :=
  if s.isEmpty then
    [.text "Please add at least one competitor using the sidebar to begin analysis."]
  else
    [.chart "Revenue Comparison ($M)",
     .chart "Market Share Distribution",
     .chart "Growth Rate Comparison (%)",
     .chart "Customer Satisfaction (1-100)",
     .chart "Employees vs Revenue (size = Product Count)",
     .dataframe,
     .downloadButton]

/- ## AnalysisClient: `get_ai_analysis` (source lines 24-46) -/

/-- A JSON value, the decoded body returned by `response.json()`. -/
inductive Json where
  | null
  | bool (b : Bool)
  | num (q : Rat)
  | str (s : String)
  | arr (elems : List Json)
  | obj (fields : List (String × Json))

/-- The Python exceptions that subscripting a decoded JSON value can raise. -/
inductive PyErr where
  | keyError
  | indexError
  | typeError
deriving DecidableEq, Repr

/-- A Python subscript: a string key or a non-negative integer index. -/
inductive PyKey where
  | pstr (s : String)
  | pint (n : Nat)

/-- First-match lookup in a decoded JSON object (Python dict). -/
def jsonLookup : List (String × Json) → String → Option Json
  | [], _ => none
  | (k, v) :: rest, n => if k = n then some v else jsonLookup rest n

/-- Python subscripting `j[k]` on a decoded JSON value:
a dict yields the value or raises `KeyError` (an integer key is never
present since JSON object keys are strings); a list indexed by an integer
yields the element or raises `IndexError`, and by a string raises
`TypeError`; a string indexed by an integer yields a one-character string
or raises `IndexError`, and by a string raises `TypeError`; `None`,
booleans and numbers are not subscriptable and raise `TypeError`. -/
def pySubscript (j : Json) (k : PyKey) : Except PyErr Json :=
  match j, k with
  | .obj fs, .pstr s =>
      match jsonLookup fs s with
      | some v => .ok v
      | none => .error .keyError
  | .obj _, .pint _ => .error .keyError
  | .arr xs, .pint n =>
      if h : n < xs.length then .ok (xs.get ⟨n, h⟩) else .error .indexError
  | .arr _, .pstr _ => .error .typeError
  | .str s, .pint n =>
      if h : n < s.data.length then .ok (.str (String.mk [s.data.get ⟨n, h⟩]))
      else .error .indexError
  | .str _, .pstr _ => .error .typeError
  | _, _ => .error .typeError

/-- The extraction `result['candidates'][0]['content']['parts'][0]['text']`
(source line 42), with Python subscript semantics. -/
def extractText (body : Json) : Except PyErr Json := do
  let a ← pySubscript body (.pstr "candidates")
  let b ← pySubscript a (.pint 0)
  let c ← pySubscript b (.pstr "content")
  let d ← pySubscript c (.pstr "parts")
  let e ← pySubscript d (.pint 0)
  pySubscript e (.pstr "text")

/-- What the one `requests.post` round trip produces, from the point of view
of lines 39-41:
`requestError d` — `requests.post` or `response.raise_for_status()` raises
a `requests.exceptions.RequestException` (connection failure or HTTP error
status such as 500) whose `str(e)` is `d`;
`okNotJson d` — 2xx transport but the body is not valid JSON, so
`response.json()` raises `requests.exceptions.JSONDecodeError`, a subclass
of `RequestException` (requests since 2.27), with `str(e) = d`;
`okJson body` — 2xx transport with a decoded JSON `body`. -/
inductive TransportResult where
  | requestError (d : String)
  | okNotJson (d : String)
  | okJson (body : Json)

/-- The value a call to `get_ai_analysis` produces: either a returned value
(`Except.ok`, always a string in the handled branches) or an uncaught
exception propagating to the caller (`Except.error`), together with the
number of network round trips the call performed. -/
structure FetchResult where
  result : Except PyErr Json
  requests : Nat

/-- The try/except structure of source lines 38-46 once the single
`requests.post` has produced `tr`: a `RequestException` (transport failure,
HTTP error from `raise_for_status`, or undecodable JSON body) is caught and
turned into the f-string `"Error fetching AI analysis: {str(e)}"`;
`KeyError` and `IndexError` raised by the extraction on line 42 are caught
and turned into the fixed string `"Error parsing AI response"`; any other
exception, such as the `TypeError` raised when a subscripted value has the
wrong type, is caught by no clause and propagates to the caller. -/
def transportOutcome (tr : TransportResult) : Except PyErr Json :=
  match tr with
  | .requestError d => .ok (.str ("Error fetching AI analysis: " ++ d))
  | .okNotJson d => .ok (.str ("Error fetching AI analysis: " ++ d))
  | .okJson body =>
      match extractText body with
      | .ok v => .ok v
      | .error .keyError => .ok (.str "Error parsing AI response")
      | .error .indexError => .ok (.str "Error parsing AI response")
      | .error .typeError => .error .typeError

/-- The function `get_ai_analysis(api_key, topic)` (source lines 24-46),
over an explicit transport outcome `tr`.  An empty `api_key` or `topic`
is falsy, so the guard on line 25 returns the informational message before
any network call; otherwise exactly one `requests.post` round trip happens
and the result is classified by `transportOutcome`. -/
def get_ai_analysis (api_key topic : String) (tr : TransportResult) :
    FetchResult :=
  if api_key = "" ∨ topic = "" then
    { result := .ok (.str "Please provide both API key and research topic"),
      requests := 0 }
  else
    { result := transportOutcome tr, requests := 1 }

theorem add_competitor_fresh (s : Store) (name : String) (h1 : name ≠ "")
    (h2 : lookupStore s name = none) :
    add_competitor name s = s ++ [(name, zeroRecord)] := by
  unfold add_competitor
  rw [if_pos ⟨h1, h2⟩]

theorem add_competitor_noop (s : Store) (name : String)
    (h : name = "" ∨ (lookupStore s name).isSome) :
    add_competitor name s = s := by
  unfold add_competitor
  rw [if_neg]
  rintro ⟨hne, hnone⟩
  rcases h with h | h
  · exact hne h
  · rw [hnone] at h
    cases h

/- ## Claim theorems -/

/-- C2: for every non-empty name not already a key of the store,
`add(name)` inserts exactly one new entry under that name whose record has
all six fields at zero, so the subsequent `snapshot()` contains exactly one
entry for that name, with all fields zero, and is one entry longer. -/
theorem add_fresh_inserts_zero_record (s : Store) (name : String)
    (h1 : name ≠ "") (h2 : lookupStore s name = none) :
    snapshot (add_competitor name s) = s ++ [(name, zeroRecord)] ∧
    (snapshot (add_competitor name s)).length = s.length + 1 ∧
    (snapshot (add_competitor name s)).countP (fun p => p.1 = name) = 1 ∧
    lookupStore (add_competitor name s) name =
      some { revenue := 0, market_share := 0, growth_rate := 0,
             employees := 0, customer_satisfaction := 0, product_count := 0 } := by
  have hadd := add_competitor_fresh s name h1 h2
  have habs := lookupStore_none_forall s name h2
  refine ⟨hadd, ?_, ?_, ?_⟩
  · rw [snapshot, hadd, List.length_append]
    rfl
  · rw [snapshot, hadd, List.countP_append]
    have hz : s.countP (fun p => decide (p.1 = name)) = 0 := by
      rw [List.countP_eq_zero]
      intro p hp
      simpa using habs p hp
    rw [hz]
    simp [List.countP, List.countP.go]
  · rw [hadd, lookupStore_append_of_none s _ name h2]
    simp [lookupStore, zeroRecord]

/-- C2 witness: adding the name Acme to the empty store. -/
theorem add_fresh_inserts_zero_record_witness :
    snapshot (add_competitor "Acme" []) = [] ++ [("Acme", zeroRecord)] ∧
    (snapshot (add_competitor "Acme" [])).length = List.length ([] : Store) + 1 ∧
    (snapshot (add_competitor "Acme" [])).countP (fun p => p.1 = "Acme") = 1 ∧
    lookupStore (add_competitor "Acme" []) "Acme" =
      some { revenue := 0, market_share := 0, growth_rate := 0,
             employees := 0, customer_satisfaction := 0, product_count := 0 } :=
  add_fresh_inserts_zero_record [] "Acme" (by decide) rfl

/-- C3: `add` with an empty name, or with a name already present, leaves the
store exactly unchanged, and `add` is idempotent: a second `add` of the same
name changes nothing. -/
theorem add_noop_and_idempotent (s : Store) (name : String) :
    add_competitor "" s = s ∧
    ((lookupStore s name).isSome → add_competitor name s = s) ∧
    add_competitor name (add_competitor name s) = add_competitor name s := by
  refine ⟨add_competitor_noop s "" (Or.inl rfl), ?_, ?_⟩
  · intro h
    exact add_competitor_noop s name (Or.inr h)
  · by_cases h1 : name = ""
    · subst h1
      rw [add_competitor_noop s "" (Or.inl rfl),
        add_competitor_noop s "" (Or.inl rfl)]
    · by_cases h2 : lookupStore s name = none
      · have hadd := add_competitor_fresh s name h1 h2
        apply add_competitor_noop
        refine Or.inr ?_
        rw [hadd, lookupStore_append_of_none s _ name h2]
        simp [lookupStore]
      · have hsome : (lookupStore s name).isSome := by
          cases h : lookupStore s name with
          | none => exact absurd h h2
          | some v => rfl
        rw [add_competitor_noop s name (Or.inr hsome),
          add_competitor_noop s name (Or.inr hsome)]

/-- C3 witness: add of the empty name, add of a present name, and a repeated
add, on the one-entry store containing Acme. -/
theorem add_noop_and_idempotent_witness :
    add_competitor "" [("Acme", zeroRecord)] = [("Acme", zeroRecord)] ∧
    ((lookupStore [("Acme", zeroRecord)] "Acme").isSome →
      add_competitor "Acme" [("Acme", zeroRecord)] = [("Acme", zeroRecord)]) ∧
    add_competitor "Acme" (add_competitor "Acme" [("Acme", zeroRecord)]) =
      add_competitor "Acme" [("Acme", zeroRecord)] :=
  add_noop_and_idempotent [("Acme", zeroRecord)] "Acme"

/-- C10: `add(name)` never modifies or removes an existing entry: every key
different from `name` keeps exactly the binding it had, and every key that
was present before is still present with the same record afterwards. -/
theorem add_preserves_other_entries (s : Store) (name k : String) :
    (k ≠ name → lookupStore (add_competitor name s) k = lookupStore s k) ∧
    (∀ v : MetricsRecord, lookupStore s k = some v →
      lookupStore (add_competitor name s) k = some v) := by
  by_cases hc : name ≠ "" ∧ lookupStore s name = none
  · have hadd : add_competitor name s = s ++ [(name, zeroRecord)] :=
      add_competitor_fresh s name hc.1 hc.2
    constructor
    · intro hk
      rw [hadd]
      cases hcase : lookupStore s k with
      | some v => exact lookupStore_append_of_some s _ k v hcase
      | none =>
          rw [lookupStore_append_of_none s _ k hcase]
          simp [lookupStore, Ne.symm hk]
    · intro v hv
      rw [hadd]
      exact lookupStore_append_of_some s _ k v hv
  · have hnoop : add_competitor name s = s := by
      unfold add_competitor
      rw [if_neg hc]
    rw [hnoop]
    exact ⟨fun _ => rfl, fun _ hv => hv⟩

/-- C10 witness: adding Beta leaves the existing Acme binding intact. -/
theorem add_preserves_other_entries_witness :
    lookupStore (add_competitor "Beta" [("Acme", zeroRecord)]) "Acme" =
      lookupStore [("Acme", zeroRecord)] "Acme" ∧
    lookupStore (add_competitor "Beta" [("Acme", zeroRecord)]) "Acme" =
      some zeroRecord :=
  ⟨(add_preserves_other_entries [("Acme", zeroRecord)] "Beta" "Acme").1 (by decide),
   (add_preserves_other_entries [("Acme", zeroRecord)] "Beta" "Acme").2 zeroRecord rfl⟩

/-- C4: updating a name absent from the store raises `KeyError` — the
NotFound signal, a catchable exception rather than a store corruption — and
the store, hence its snapshot, is exactly unchanged. -/
theorem update_absent_name_notfound (s : Store) (name : String)
    (f : MetricsRecord) (h : lookupStore s name = none) :
    updateCompetitor s name f = .error .keyError ∧
    snapshot (applyUpdate s name f) = snapshot s := by
  have hupd : updateCompetitor s name f = .error .keyError := by
    unfold updateCompetitor
    rw [h]
    rfl
  exact ⟨hupd, by rw [applyUpdate, hupd]⟩

/-- C4 witness: updating the absent name Zeta on the one-entry store. -/
theorem update_absent_name_notfound_witness :
    updateCompetitor [("Acme", zeroRecord)] "Zeta" zeroRecord =
      .error .keyError ∧
    snapshot (applyUpdate [("Acme", zeroRecord)] "Zeta" zeroRecord) =
      snapshot [("Acme", zeroRecord)] :=
  update_absent_name_notfound [("Acme", zeroRecord)] "Zeta" zeroRecord rfl

theorem applyUpdate_preserves_bounds (s : Store) (n : String)
    (f : MetricsRecord) (hs : allInBounds s = true) (hf : inBounds f = true) :
    allInBounds (applyUpdate s n f) = true := by
  unfold applyUpdate
  cases hu : updateCompetitor s n f with
  | error e => exact hs
  | ok s2 =>
      unfold updateCompetitor at hu
      split at hu
      · injection hu with hs2
        subst hs2
        rw [allInBounds, List.all_map]
        rw [allInBounds, List.all_eq_true] at hs
        rw [List.all_eq_true]
        intro p hp
        have hpb := hs p hp
        by_cases hpn : p.1 = n
        · simp [Function.comp, hpn, hf]
        · simp [Function.comp, hpn, hpb]
      · cases hu

theorem applyUpdates_preserve_bounds (us : List (String × MetricsRecord)) :
    ∀ s : Store, allInBounds s = true →
    us.all (fun u => inBounds u.2) = true →
    allInBounds (applyUpdates s us) = true := by
  induction us with
  | nil => intro s hs _; exact hs
  | cons u rest ih =>
      intro s hs hu
      have hu2 : inBounds u.2 = true ∧ rest.all (fun w => inBounds w.2) = true := by
        simpa using hu
      show allInBounds (applyUpdates (applyUpdate s u.1 u.2) rest) = true
      exact ih (applyUpdate s u.1 u.2)
        (applyUpdate_preserves_bounds s u.1 u.2 hs hu2.1) hu2.2

/-- C1 counterexample: the store performs no validation on write.  Updating
Acme with customer_satisfaction = 150 succeeds, the out-of-range value is
stored verbatim (neither rejected nor clamped) and is visible in the
snapshot, where it violates its declared bound. -/
theorem update_stores_out_of_range_verbatim :
    updateCompetitor (add_competitor "Acme" []) "Acme"
        (MetricsRecord.mk 0 0 0 0 150 0) =
      .ok [("Acme", MetricsRecord.mk 0 0 0 0 150 0)] ∧
    lookupStore
        (snapshot (applyUpdate (add_competitor "Acme" []) "Acme"
          (MetricsRecord.mk 0 0 0 0 150 0))) "Acme" =
      some (MetricsRecord.mk 0 0 0 0 150 0) ∧
    inBounds (MetricsRecord.mk 0 0 0 0 150 0) = false ∧
    allInBounds
        (snapshot (applyUpdate (add_competitor "Acme" []) "Acme"
          (MetricsRecord.mk 0 0 0 0 150 0))) = false :=
  ⟨rfl, rfl, rfl, rfl⟩

/-- C1 amended: the bounds invariant holds only conditionally — when every
record already in the store satisfies its declared bounds and every update
writes widget-clamped values (each within its `st.number_input` min/max),
then after any sequence of updates every field visible in `snapshot()`
satisfies its declared bound.  The store itself never re-validates. -/
theorem bounds_hold_for_widget_clamped_updates (s : Store)
    (us : List (String × MetricsRecord)) (hs : allInBounds s = true)
    (hu : us.all (fun u => inBounds u.2) = true) :
    allInBounds (snapshot (applyUpdates s us)) = true :=
  applyUpdates_preserve_bounds us s hs hu

/-- C1 amended witness: two in-bounds updates of Acme starting from the
all-zero record keep every snapshot field within its bound. -/
theorem bounds_hold_for_widget_clamped_updates_witness :
    allInBounds
      (snapshot (applyUpdates [("Acme", zeroRecord)]
        [("Acme", MetricsRecord.mk 50 12 5 200 80 3),
         ("Acme", MetricsRecord.mk 75 20 0 150 90 4)])) = true :=
  bounds_hold_for_widget_clamped_updates [("Acme", zeroRecord)]
    [("Acme", MetricsRecord.mk 50 12 5 200 80 3),
     ("Acme", MetricsRecord.mk 75 20 0 150 90 4)] rfl rfl

/-- C8: when the store is empty, `is_empty()` reports true and the main
content renders no chart; conversely any rendering that contains a chart
came from a non-empty store. -/
theorem empty_store_renders_no_charts (s : Store) (h : snapshot s = []) :
    isEmptyStore s = true ∧
    (renderMain s).countP RenderElem.isChart = 0 ∧
    (∀ t : Store, 0 < (renderMain t).countP RenderElem.isChart →
      isEmptyStore t = false) := by
  have hs : s = [] := h
  subst hs
  refine ⟨rfl, rfl, ?_⟩
  intro t ht
  cases t with
  | nil => exact absurd ht (by decide)
  | cons p rest => rfl

/-- C8 witness: the empty store. -/
theorem empty_store_renders_no_charts_witness :
    isEmptyStore ([] : Store) = true ∧
    (renderMain ([] : Store)).countP RenderElem.isChart = 0 ∧
    (∀ t : Store, 0 < (renderMain t).countP RenderElem.isChart →
      isEmptyStore t = false) :=
  empty_store_renders_no_charts [] rfl

/-- C5: when the credential or the topic is empty, `get_ai_analysis` returns
the fixed informational provide-both message with zero network round trips,
whatever the transport would have produced. -/
theorem fetch_missing_input_message (k t : String) (tr : TransportResult)
    (h : k = "" ∨ t = "") :
    get_ai_analysis k t tr =
      { result := .ok (.str "Please provide both API key and research topic"),
        requests := 0 } := by
  unfold get_ai_analysis
  rw [if_pos h]

/-- C5 witness: an empty credential with topic widgets. -/
theorem fetch_missing_input_message_witness :
    get_ai_analysis "" "widgets" (.okJson .null) =
      { result := .ok (.str "Please provide both API key and research topic"),
        requests := 0 } :=
  fetch_missing_input_message "" "widgets" (.okJson .null) (Or.inl rfl)

/-- C6: with both inputs non-empty, a transport failure makes
`get_ai_analysis` return the fetching-error message embedding the failure
description, after exactly one round trip, and no exception propagates. -/
theorem fetch_transport_failure_message (k t d : String)
    (h1 : k ≠ "") (h2 : t ≠ "") :
    get_ai_analysis k t (.requestError d) =
      { result := .ok (.str ("Error fetching AI analysis: " ++ d)),
        requests := 1 } ∧
    ∀ e : PyErr, (get_ai_analysis k t (.requestError d)).result ≠ .error e := by
  have heq : get_ai_analysis k t (.requestError d) =
      { result := .ok (.str ("Error fetching AI analysis: " ++ d)),
        requests := 1 } := by
    unfold get_ai_analysis
    rw [if_neg (fun hc => hc.elim h1 h2)]
    rfl
  refine ⟨heq, ?_⟩
  intro e h
  rw [heq] at h
  exact Except.noConfusion h

/-- C6 witness: an HTTP 500 from the endpoint. -/
theorem fetch_transport_failure_message_witness :
    get_ai_analysis "key" "widgets"
        (.requestError "500 Server Error: Internal Server Error") =
      { result := .ok (.str ("Error fetching AI analysis: " ++
          "500 Server Error: Internal Server Error")),
        requests := 1 } ∧
    ∀ e : PyErr,
      (get_ai_analysis "key" "widgets"
        (.requestError "500 Server Error: Internal Server Error")).result ≠
      .error e :=
  fetch_transport_failure_message "key" "widgets"
    "500 Server Error: Internal Server Error" (by decide) (by decide)

/-- C7 counterexample: a successful transport whose JSON body is a list
deviates from the expected shape, yet `get_ai_analysis` does not return a
MalformedResponse-classified message — subscripting the list with the
string key candidates raises `TypeError`, which no except clause catches,
so the exception propagates to the caller. -/
theorem json_list_body_uncaught_typeerror :
    get_ai_analysis "key" "widgets" (.okJson (.arr [])) =
      { result := .error .typeError, requests := 1 } ∧
    extractText (.arr []) = .error .typeError :=
  ⟨rfl, rfl⟩

/-- C7 amended: only the shape deviations that raise `KeyError` or
`IndexError` during the extraction (a missing object key, an integer
subscript on an object, or an out-of-range index — including a missing
text field) yield the MalformedResponse message, the fixed string
"Error parsing AI response", and that message differs from every
RequestFailed message; deviations that subscript a wrongly-typed value
raise an uncaught `TypeError` instead. -/
theorem fetch_parse_error_message_distinct (k t : String) (body : Json)
    (h1 : k ≠ "") (h2 : t ≠ "")
    (h3 : extractText body = .error .keyError ∨
      extractText body = .error .indexError) :
    get_ai_analysis k t (.okJson body) =
      { result := .ok (.str "Error parsing AI response"), requests := 1 } ∧
    ∀ d : String,
      "Error parsing AI response" ≠ "Error fetching AI analysis: " ++ d := by
  constructor
  · unfold get_ai_analysis
    rw [if_neg (fun hc => hc.elim h1 h2)]
    rcases h3 with h3 | h3 <;> simp [transportOutcome, h3]
  · intro d h
    have hlen := congrArg String.length h
    rw [String.length_append] at hlen
    have h25 : ("Error parsing AI response").length = 25 := by decide
    have h28 : ("Error fetching AI analysis: ").length = 28 := by decide
    rw [h25, h28] at hlen
    omega

/-- C7 amended witness: an empty JSON object body, which is missing the
candidates key and so raises `KeyError`. -/
theorem fetch_parse_error_message_distinct_witness :
    get_ai_analysis "key" "widgets" (.okJson (.obj [])) =
      { result := .ok (.str "Error parsing AI response"), requests := 1 } ∧
    ∀ d : String,
      "Error parsing AI response" ≠ "Error fetching AI analysis: " ++ d :=
  fetch_parse_error_message_distinct "key" "widgets" (.obj [])
    (by decide) (by decide) (Or.inl rfl)

/-- C9: with both inputs non-empty, every call performs exactly one network
round trip, whatever the transport outcome — in particular no retry happens
after a failure and no cached result replaces the request. -/
theorem fetch_exactly_one_round_trip (k t : String) (tr : TransportResult)
    (h1 : k ≠ "") (h2 : t ≠ "") :
    (get_ai_analysis k t tr).requests = 1 := by
  unfold get_ai_analysis
  rw [if_neg (fun hc => hc.elim h1 h2)]

/-- C9 witness: one round trip even when the transport fails. -/
theorem fetch_exactly_one_round_trip_witness :
    (get_ai_analysis "key" "widgets" (.requestError "timeout")).requests = 1 :=
  fetch_exactly_one_round_trip "key" "widgets" (.requestError "timeout")
    (by decide) (by decide)

end CompAnalysis
